import Mathlib

/-!
Shallow embedding of `pyvivint/vivintskyapi.py` (class `VivintSkyApi`).

The Python class is an async HTTP client.  We embed it as pure functions over
an explicit client state (`VivintSkyApi`): every network interaction takes the
HTTP response the transport would deliver as an explicit parameter, stateful
methods return the updated state, and Python exceptions become the `.error`
side of `Except PyError`.  Timestamps (`datetime` values) are modelled as
natural numbers; only their ordering is ever used by the source.
-/

namespace PyVivint

/-- The Python exceptions a modelled operation can raise.
`vivintSkyApiAuthenticationError` and `vivintSkyApiError` are the two classes
from `pyvivint.exceptions`; `clientResponseError` is what aiohttp's
`resp.raise_for_status()` raises for a status of 400 or above;
`attributeError`, `keyError` and `typeError` are the Python builtins. -/
inductive PyError where
  | vivintSkyApiAuthenticationError (msg : String)
  | vivintSkyApiError (msg : String)
  | clientResponseError (status : Nat)
  | attributeError (obj : String) (attr : String)
  | keyError (key : String)
  | typeError (msg : String)
  deriving Repr, DecidableEq

/-- An HTTP response as the endpoint operations consume it: its status code,
its JSON object body (an association list of string fields, for the
endpoints that call `resp.json()`), its raw text (for `resp.text()`) and its
headers (for `resp.headers.get`). -/
structure HttpResponse where
  status : Nat
  jsonBody : List (String × String)
  text : String
  headers : List (String × String)
  deriving Repr, DecidableEq

/-- The session cookie `"s"` stored for domain `www.vivintsky.com` in the
client session's cookie jar, carrying its parsed `expires` attribute
(`datetime.strptime(cookie.get("expires"), "%a, %d %b %Y %H:%M:%S %Z")`),
modelled as a timestamp. -/
structure SessionCookie where
  expires : Nat
  deriving Repr, DecidableEq

/-- The relevant state of an `aiohttp.ClientSession`: the session cookie
found by `cookie_jar._cookies["www.vivintsky.com"].get("s")` (none when no
such cookie was ever stored), and whether `close()` has been called. -/
structure ClientSession where
  sessionCookie : Option SessionCookie
  closed : Bool
  deriving Repr, DecidableEq

/-- The instance state of a `VivintSkyApi` object, exactly the attributes
`__init__` assigns: `__username`, `__password`, `__client_session`,
`__has_custom_client_session` and `__zwave_device_info` (the z-wave
device-metadata cache, a dict from lookup keys to lists of strings). -/
structure VivintSkyApi where
  username : String
  password : String
  client_session : ClientSession
  has_custom_client_session : Bool
  zwave_device_info : List (String × List String)
  deriving Repr, DecidableEq

/-- `VivintSkyApi.__get_new_client_session`: a freshly created
`aiohttp.ClientSession` — empty cookie jar, not closed.  (TLS/connector
configuration is transport detail with no observable state here.) -/
def get_new_client_session : ClientSession :=
  { sessionCookie := none, closed := false }

/-- `VivintSkyApi.__init__(username, password, client_session=None)`:
stores the credentials, uses the supplied client session or creates a new
one, records whether the session was caller-supplied, and starts with an
empty z-wave device-info cache. -/
def VivintSkyApi.init (username password : String)
    (client_session : Option ClientSession) : VivintSkyApi :=
  { username := username
    password := password
    client_session := client_session.getD get_new_client_session
    has_custom_client_session := client_session.isSome
    zwave_device_info := [] }

/-- The attribute names `__init__` sets on a `VivintSkyApi` instance (after
Python's name mangling of the double-underscore prefixes).  The class body
defines no data attributes of its own; in particular no attribute `id`
exists on an instance. -/
def VivintSkyApi.instanceAttributes : List String :=
  ["_VivintSkyApi__username", "_VivintSkyApi__password",
   "_VivintSkyApi__client_session", "_VivintSkyApi__has_custom_client_session",
   "_VivintSkyApi__zwave_device_info"]

/-- Evaluation of the expression `self.id` on a `VivintSkyApi` instance.
Since `id` is not among the instance's attributes, Python raises
`AttributeError`; the `.ok` branch is unreachable but kept so the definition
mirrors a successful attribute lookup. -/
def VivintSkyApi.getattrId (_api : VivintSkyApi) : Except PyError String :=
  if "id" ∈ VivintSkyApi.instanceAttributes then .ok "id"
  else .error (.attributeError "VivintSkyApi" "id")

/-- `VivintSkyApi.is_session_valid(self)` at current time `now`
(`datetime.utcnow()`): looks up the session cookie; with no cookie it
returns `False`; otherwise it parses the cookie's expiration and returns
`True if cookie_expiration > datetime.utcnow() else False`. -/
def VivintSkyApi.is_session_valid (api : VivintSkyApi) (now : Nat) : Bool :=
  match api.client_session.sessionCookie with
  | none => false
  | some cookie => if cookie.expires > now then true else false

/-- aiohttp's `ClientResponse.raise_for_status()`: raises
`ClientResponseError` exactly when the status is 400 or above, and is a
no-op otherwise. -/
def raise_for_status (status : Nat) : Except PyError Unit :=
  if 400 ≤ status then .error (.clientResponseError status) else .ok ()

/-- `VivintSkyApi.__get_vivintsky_session(username, password)`, applied to
the login response the server delivers.  It parses the JSON body, then:
status 200 returns the data; status 401 raises
`VivintSkyApiAuthenticationError(data["msg"])` (a missing `msg` field would
be a `KeyError`); any other status calls `resp.raise_for_status()` and, when
that does not raise (status below 400), falls through to `return None`.
The `Option` in the result distinguishes Python's `None` (`.ok none`) from a
returned JSON object (`.ok (some data)`). -/
def get_vivintsky_session (resp : HttpResponse) :
    Except PyError (Option (List (String × String))) :=
  if resp.status = 200 then .ok (some resp.jsonBody)
  else if resp.status = 401 then
    match resp.jsonBody.lookup "msg" with
    | some m => .error (.vivintSkyApiAuthenticationError m)
    | none => .error (.keyError "msg")
  else
    match raise_for_status resp.status with
    | .error e => .error e
    | .ok _ => .ok none

/-- `VivintSkyApi.connect(self)`: performs the login exchange and raises
`VivintSkyApiAuthenticationError("Unable to login to Vivint.")` when the
returned `authuser_data` is falsy — Python's `not authuser_data` holds both
for `None` and for an empty dict; otherwise returns the data. -/
def VivintSkyApi.connect (_api : VivintSkyApi) (loginResp : HttpResponse) :
    Except PyError (List (String × String)) :=
  match get_vivintsky_session loginResp with
  | .error e => .error e
  | .ok authuser_data =>
    match authuser_data with
    | none => .error (.vivintSkyApiAuthenticationError "Unable to login to Vivint.")
    | some d =>
      if d.isEmpty then
        .error (.vivintSkyApiAuthenticationError "Unable to login to Vivint.")
      else .ok d

/-- `VivintSkyApi.disconnect(self)`: closes the underlying client session
only when it was not supplied by the caller at construction; nothing else
in the instance state is touched. -/
def VivintSkyApi.disconnect (api : VivintSkyApi) : VivintSkyApi :=
  if !api.has_custom_client_session then
    { api with client_session := { api.client_session with closed := true } }
  else api

/-- The observable events of one pass through the dispatcher
`VivintSkyApi.__call`: consulting `is_session_valid` (with its outcome),
invoking the Authenticator (`connect`), and sending the underlying HTTP
request for a path. -/
inductive DispatchEvent where
  | sessionCheck (valid : Bool)
  | authenticatorCall
  | httpRequest (path : String)
  deriving Repr, DecidableEq

/-- `VivintSkyApi.__call(method, path, ...)` as the sequence of observable
events it performs, given whether the reauthentication (`await
self.connect()`) completes successfully.  Python's `and` short-circuits, so
for the path `"login"` the dispatcher never consults `is_session_valid`;
when `connect` raises, its exception propagates and the underlying request
is never sent. -/
def VivintSkyApi.call_trace (api : VivintSkyApi) (now : Nat) (path : String)
    (authOk : Bool) : List DispatchEvent :=
  if path = "login" then
    [.httpRequest path]
  else if api.is_session_valid now then
    [.sessionCheck true, .httpRequest path]
  else if authOk then
    [.sessionCheck false, .authenticatorCall, .httpRequest path]
  else
    [.sessionCheck false, .authenticatorCall]

/-- Modelled from the spec: `ArmedState.name` lives in `pyvivint/enums.py`,
which is not among the provided sources; the spec uses it only through the
fact that log and error messages name the target arm state, so it is
modelled as an injective naming function on state values. -/
def ArmedState.name (state : Nat) : String := s!"ArmedState {state}"

/-- The PUT request `set_alarm_state` sends: path
`{panel_id}/{partition_id}/armedstates` with JSON body
`{"system": panel_id, "partitionId": partition_id, "armState": state,
"forceArm": false}`. -/
structure AlarmPutRequest where
  path : String
  system : Nat
  partitionId : Nat
  armState : Nat
  forceArm : Bool
  deriving Repr, DecidableEq

/-- The request `VivintSkyApi.set_alarm_state` builds from its arguments. -/
def set_alarm_state_request (panel_id partition_id state : Nat) : AlarmPutRequest :=
  { path := s!"{panel_id}/{partition_id}/armedstates"
    system := panel_id
    partitionId := partition_id
    armState := state
    forceArm := false }

/-- `VivintSkyApi.set_alarm_state(panel_id, partition_id, state)` applied to
the response to its PUT: a 200 status completes normally with nothing
logged; on any other status the error log (reading only the response, the
request info and the arm-state name) is emitted, and the subsequent
`raise VivintSkyApiError(f"... for panel {self.id}")` evaluates `self.id`
while building the message, raising `AttributeError` and pre-empting the
intended `VivintSkyApiError`.  Returns the outcome paired with the list of
log messages emitted. -/
def VivintSkyApi.set_alarm_state (api : VivintSkyApi)
    (panel_id partition_id state : Nat) (resp : HttpResponse) :
    Except PyError Unit × List String :=
  if resp.status ≠ 200 then
    let stateName := ArmedState.name state
    let reqPath := (set_alarm_state_request panel_id partition_id state).path
    let respStatus := resp.status
    let respBody := resp.text
    let logMsg :=
      s!"failed to set state {stateName}. Code: {respStatus}, body: {respBody},request url: {reqPath}"
    match api.getattrId with
    | .error e => (.error e, [logMsg])
    | .ok i =>
      (.error (.vivintSkyApiError
        s!"failed to set alarm status {stateName} for panel {i}"), [logMsg])
  else (.ok (), [])

/-- `VivintSkyApi.request_camera_thumbnail(...)` applied to the response of
its GET to the trigger endpoint: a 2xx status completes silently; on any
other status the code only means to log, but the log message's f-string
reads `self.id`, so `AttributeError` is raised before `_LOGGER.info` runs. -/
def VivintSkyApi.request_camera_thumbnail (api : VivintSkyApi)
    (_panel_id _partition_id _device_id : Nat) (resp : HttpResponse) :
    Except PyError Unit × List String :=
  if resp.status < 200 ∨ 299 < resp.status then
    let respStatus := resp.status
    match api.getattrId with
    | .error e => (.error e, [])
    | .ok i =>
      (.ok (), [s!"failed to request thumbnail for camera id {i}. Error code: {respStatus}"])
  else (.ok (), [])

/-- `VivintSkyApi.get_camera_thumbnail_url(...)` applied to the response of
its redirect-disabled GET: on a 302 it returns `resp.headers.get("Location")`;
on any other status the code means to log and return `None`, but the log
message's f-string reads `self.id`, so `AttributeError` is raised first. -/
def VivintSkyApi.get_camera_thumbnail_url (api : VivintSkyApi)
    (_panel_id _partition_id _device_id _thumbnail_timestamp : Nat)
    (resp : HttpResponse) : Except PyError (Option String) × List String :=
  if resp.status ≠ 302 then
    let respStatus := resp.status
    match api.getattrId with
    | .error e => (.error e, [])
    | .ok i =>
      (.ok none, [s!"failed to request thumbnail for camera id {i}. Status code: {respStatus}"])
  else (.ok (resp.headers.lookup "Location"), [])

/-- Whether the character list `l` starts with the characters of `sep`. -/
def matchesSep : List Char → List Char → Bool
  | [], _ => true
  | _ :: _, [] => false
  | a :: ss, b :: ls => a == b && matchesSep ss ls

/-- Worker for `pySplit`, structurally recursive on a fuel argument (the
fuel never runs out when it starts at the input length plus one, since each
step consumes at least one input character): scans the input, emitting the
accumulated chunk at each leftmost non-overlapping occurrence of the
separator. -/
def pySplitAux (sep : List Char) : Nat → List Char → List Char → List (List Char)
  | 0, acc, rest => [acc.reverse ++ rest]
  | _ + 1, acc, [] => [acc.reverse]
  | fuel + 1, acc, c :: rest =>
    if matchesSep sep (c :: rest) then
      acc.reverse :: pySplitAux sep fuel [] (rest.drop (sep.length - 1))
    else
      pySplitAux sep fuel (c :: acc) rest

/-- Python's `str.split(sep)` for a non-empty separator (the only use in the
source is `d[1].split(" - ")`): splits on each leftmost non-overlapping
occurrence of `sep`, yielding one more chunk than there are occurrences. -/
def pySplit (s sep : String) : List String :=
  (pySplitAux sep.toList (s.toList.length + 1) [] s.toList).map List.asString

/-- The response of the openzwave device-database lookup as
`get_zwave_details` consumes it: the status, and the first capture group of
`re.search("<title>(.*)</title>", text, re.IGNORECASE)` on the body (`none`
when the pattern does not match; the scraping itself is out of the spec's
scope and the match result is taken as given). -/
structure ZwaveResponse where
  status : Nat
  titleMatch : Option String
  deriving Repr, DecidableEq

/-- `VivintSkyApi.get_zwave_details(manufacturer_id, product_id,
product_type_id)`, with the database response supplied for the case of a
cache miss.  Returns the outcome, the updated client state, and the number
of network calls performed (0 on a cache hit, 1 otherwise).  On a hit the
cached value is returned unchanged.  On a miss with status 200 the title
match is split on the literal `" - "`, stored in the cache and returned
(`d[1]` on a failed match raises `TypeError`); on any other status
`response.raise_for_status()` runs and, when it does not raise (status
below 400), the function returns `None`; the cache is populated only in the
successful 200 branch. -/
def VivintSkyApi.get_zwave_details (api : VivintSkyApi)
    (manufacturer_id product_id product_type_id : Nat) (resp : ZwaveResponse) :
    Except PyError (Option (List String)) × VivintSkyApi × Nat :=
  let zwave_lookup := s!"{manufacturer_id}:{product_id}:{product_type_id}"
  match api.zwave_device_info.lookup zwave_lookup with
  | some device_info => (.ok (some device_info), api, 0)
  | none =>
    if resp.status = 200 then
      match resp.titleMatch with
      | none => (.error (.typeError "NoneType object is not subscriptable"), api, 1)
      | some title =>
        let result := pySplit title " - "
        (.ok (some result),
          { api with zwave_device_info := (zwave_lookup, result) :: api.zwave_device_info },
          1)
    else
      match raise_for_status resp.status with
      | .error e => (.error e, api, 1)
      | .ok _ => (.ok none, api, 1)

/-- Where a dispatch task stands in `__call`'s control flow, between the
suspension points of the cooperative scheduler: `ready` — about to run the
(non-suspending) session-validity check; `authenticating` — has invoked the
Authenticator and is suspended awaiting the login exchange; `requesting` —
past the authentication step, sending the underlying request; `finished`. -/
inductive TaskPhase where
  | ready
  | authenticating
  | requesting
  | finished
  deriving Repr, DecidableEq

/-- Two dispatch tasks sharing one client instance: the shared session
validity, each task's phase, and how many times the Authenticator has been
invoked in total. -/
structure DispatchSystem where
  sessionValid : Bool
  t0 : TaskPhase
  t1 : TaskPhase
  authInvocations : Nat
  deriving Repr, DecidableEq

/-- One atomic segment of a dispatch task, as `__call` executes it between
suspension points: from `ready`, the check runs and either proceeds to the
request (session valid) or invokes the Authenticator and suspends; from
`authenticating`, the login exchange completes, making the shared session
valid; a `requesting` task finishes.  Returns the new phase, whether the
Authenticator was invoked, and whether an authentication completed. -/
def phaseAdvance (valid : Bool) : TaskPhase → TaskPhase × Bool × Bool
  | .ready =>
    if valid then (.requesting, false, false) else (.authenticating, true, false)
  | .authenticating => (.requesting, false, true)
  | .requesting => (.finished, false, false)
  | .finished => (.finished, false, false)

/-- Run one atomic segment of task `i` (0 or 1) against the shared state. -/
def stepTask (s : DispatchSystem) (i : Nat) : DispatchSystem :=
  if i = 0 then
    let a := phaseAdvance s.sessionValid s.t0
    { s with
      t0 := a.1
      authInvocations := s.authInvocations + (if a.2.1 then 1 else 0)
      sessionValid := s.sessionValid || a.2.2 }
  else
    let a := phaseAdvance s.sessionValid s.t1
    { s with
      t1 := a.1
      authInvocations := s.authInvocations + (if a.2.1 then 1 else 0)
      sessionValid := s.sessionValid || a.2.2 }

/-- Run the tasks under a cooperative schedule: the list of task ids in the
order the scheduler resumes them. -/
def runSchedule (s : DispatchSystem) : List Nat → DispatchSystem
  | [] => s
  | i :: rest => runSchedule (stepTask s i) rest

/-- Two dispatches issued concurrently while the session is already
expired: both tasks are at their validity check and no Authenticator call
has happened yet. -/
def expiredStart : DispatchSystem :=
  { sessionValid := false, t0 := .ready, t1 := .ready, authInvocations := 0 }

/-- A task still at its validity check can contribute one more
Authenticator invocation; counting those bounds future invocations. -/
def readyWeight : TaskPhase → Nat
  | .ready => 1
  | _ => 0

/-- Upper bound on the total Authenticator invocations the system can ever
reach: those already performed plus one per task still at its check. -/
def authBound (s : DispatchSystem) : Nat :=
  s.authInvocations + readyWeight s.t0 + readyWeight s.t1

/-- C2: `is_session_valid` returns false when no session cookie was ever
established (in particular on a freshly constructed client with no supplied
session); when a cookie exists it returns true exactly when the cookie's
expiration is strictly later than the current time, so an expiration in the
past or equal to now yields false. -/
theorem is_session_valid_spec (api : VivintSkyApi) (now : Nat) :
    (api.client_session.sessionCookie = none →
      api.is_session_valid now = false) ∧
    (∀ c : SessionCookie, api.client_session.sessionCookie = some c →
      (api.is_session_valid now = true ↔ now < c.expires)) ∧
    (∀ u p : String, (VivintSkyApi.init u p none).is_session_valid now = false) := by
  refine ⟨fun h => ?_, fun c hc => ?_, fun u p => rfl⟩
  · simp [VivintSkyApi.is_session_valid, h]
  · simp [VivintSkyApi.is_session_valid, hc]

/-- C2 witness: concrete evaluations — no cookie is invalid, a cookie
expiring strictly after now is valid, one expiring exactly now is not. -/
theorem is_session_valid_spec_witness :
    ((VivintSkyApi.init "u" "p" none).is_session_valid 5 = false) ∧
    ((VivintSkyApi.init "u" "p"
        (some { sessionCookie := some { expires := 7 }, closed := false })).is_session_valid 5
      = true) ∧
    ((VivintSkyApi.init "u" "p"
        (some { sessionCookie := some { expires := 5 }, closed := false })).is_session_valid 5
      = false) := by
  refine ⟨(is_session_valid_spec (VivintSkyApi.init "u" "p" none) 5).1 rfl, ?_, ?_⟩
  · exact ((is_session_valid_spec
      (VivintSkyApi.init "u" "p"
        (some { sessionCookie := some { expires := 7 }, closed := false })) 5).2.1
        { expires := 7 } rfl).mpr (by decide)
  · have h := ((is_session_valid_spec
      (VivintSkyApi.init "u" "p"
        (some { sessionCookie := some { expires := 5 }, closed := false })) 5).2.1
        { expires := 5 } rfl)
    cases hb : (VivintSkyApi.init "u" "p"
        (some { sessionCookie := some { expires := 5 }, closed := false })).is_session_valid 5
    · rfl
    · exact absurd (h.mp hb) (by decide)

/-- C3 counterexample: a login response with the non-success status 302
(neither 200 nor in the 2xx success range) makes `__get_vivintsky_session`
return `None` without raising anything — `raise_for_status` only raises for
statuses of 400 and above — refuting the claim that on every non-success
status other than 401 the server's raised status error propagates. -/
theorem get_vivintsky_session_302_no_error :
    get_vivintsky_session { status := 302, jsonBody := [], text := "", headers := [] }
      = .ok none ∧
    (302 ≠ 200 ∧ (302 < 200 ∨ 299 < 302)) := by
  constructor
  · rfl
  · exact ⟨by decide, Or.inr (by decide)⟩

/-- C3 (amended): on status 200 the parsed payload is returned; on 401 the
operation fails with `VivintSkyApiAuthenticationError` carrying the
server-supplied `msg`; on any status of 400 or above other than 401 the
error raised by `resp.raise_for_status()` propagates unwrapped; and on any
other non-200 status below 400 the operation returns `None` without
raising. -/
theorem get_vivintsky_session_spec (resp : HttpResponse) :
    (resp.status = 200 → get_vivintsky_session resp = .ok (some resp.jsonBody)) ∧
    (resp.status = 401 → ∀ m : String, resp.jsonBody.lookup "msg" = some m →
      get_vivintsky_session resp = .error (.vivintSkyApiAuthenticationError m)) ∧
    (resp.status ≠ 200 → resp.status ≠ 401 → 400 ≤ resp.status →
      get_vivintsky_session resp = .error (.clientResponseError resp.status)) ∧
    (resp.status ≠ 200 → resp.status ≠ 401 → resp.status < 400 →
      get_vivintsky_session resp = .ok none) := by
  refine ⟨fun h200 => ?_, fun h401 m hm => ?_, fun h200 h401 h400 => ?_,
    fun h200 h401 h400 => ?_⟩
  · simp [get_vivintsky_session, h200]
  · simp [get_vivintsky_session, h401, hm]
  · simp [get_vivintsky_session, h200, h401, raise_for_status, h400]
  · simp [get_vivintsky_session, h200, h401, raise_for_status, Nat.not_le.mpr h400]

/-- C3 witness: concrete login responses — 200 returns the payload, 401
carries the server message, 500 propagates the raised status error, and 204
returns `None`. -/
theorem get_vivintsky_session_spec_witness :
    (get_vivintsky_session { status := 200, jsonBody := [("id", "u1")], text := "", headers := [] }
      = .ok (some [("id", "u1")])) ∧
    (get_vivintsky_session { status := 401, jsonBody := [("msg", "bad creds")], text := "", headers := [] }
      = .error (.vivintSkyApiAuthenticationError "bad creds")) ∧
    (get_vivintsky_session { status := 500, jsonBody := [], text := "", headers := [] }
      = .error (.clientResponseError 500)) ∧
    (get_vivintsky_session { status := 204, jsonBody := [], text := "", headers := [] }
      = .ok none) := by
  refine ⟨?_, ?_, ?_, ?_⟩
  · exact (get_vivintsky_session_spec
      { status := 200, jsonBody := [("id", "u1")], text := "", headers := [] }).1 rfl
  · exact (get_vivintsky_session_spec
      { status := 401, jsonBody := [("msg", "bad creds")], text := "", headers := [] }).2.1
      rfl "bad creds" rfl
  · exact (get_vivintsky_session_spec
      { status := 500, jsonBody := [], text := "", headers := [] }).2.2.1
      (by decide) (by decide) (by decide)
  · exact (get_vivintsky_session_spec
      { status := 204, jsonBody := [], text := "", headers := [] }).2.2.2
      (by decide) (by decide) (by decide)

/-- C9: when the login exchange does not raise but yields a falsy payload —
a 200 response whose JSON body is the empty object, or a non-raising
non-200 status that makes the exchange return `None` — `connect` raises
`VivintSkyApiAuthenticationError("Unable to login to Vivint.")`; and any
payload `connect` does return is non-empty. -/
theorem connect_rejects_falsy (api : VivintSkyApi) (resp : HttpResponse) :
    (resp.status = 200 → resp.jsonBody = [] →
      api.connect resp
        = .error (.vivintSkyApiAuthenticationError "Unable to login to Vivint.")) ∧
    (get_vivintsky_session resp = .ok none →
      api.connect resp
        = .error (.vivintSkyApiAuthenticationError "Unable to login to Vivint.")) ∧
    (∀ d : List (String × String), api.connect resp = .ok d → d ≠ []) := by
  refine ⟨fun h200 hbody => ?_, fun hnone => ?_, fun d hd => ?_⟩
  · simp [VivintSkyApi.connect, get_vivintsky_session, h200, hbody]
  · simp [VivintSkyApi.connect, hnone]
  · unfold VivintSkyApi.connect at hd
    cases hsess : get_vivintsky_session resp with
    | error e => simp [hsess] at hd
    | ok o =>
      cases o with
      | none => simp [hsess] at hd
      | some l =>
        simp only [hsess] at hd
        by_cases hl : l.isEmpty
        · simp [hl] at hd
        · simp [hl] at hd
          subst hd
          simpa [List.isEmpty_iff] using hl

/-- C9 witness: on a 200 login response with an empty JSON object, `connect`
raises the authentication error rather than returning the empty payload. -/
theorem connect_rejects_falsy_witness :
    (VivintSkyApi.init "u" "p" none).connect
        { status := 200, jsonBody := [], text := "", headers := [] }
      = .error (.vivintSkyApiAuthenticationError "Unable to login to Vivint.") :=
  (connect_rejects_falsy (VivintSkyApi.init "u" "p" none)
    { status := 200, jsonBody := [], text := "", headers := [] }).1 rfl rfl

/-- C10: `disconnect` closes the underlying client session exactly when the
session was created internally (`has_custom_client_session` records at
construction whether a session was supplied); a caller-supplied session
leaves the whole state untouched, and in every case the credentials, the
session cookie and the device-metadata cache are unchanged. -/
theorem disconnect_spec (api : VivintSkyApi) :
    (api.has_custom_client_session = true → api.disconnect = api) ∧
    (api.has_custom_client_session = false →
      api.disconnect.client_session.closed = true) ∧
    (api.disconnect.username = api.username ∧
     api.disconnect.password = api.password ∧
     api.disconnect.zwave_device_info = api.zwave_device_info ∧
     api.disconnect.has_custom_client_session = api.has_custom_client_session ∧
     api.disconnect.client_session.sessionCookie
       = api.client_session.sessionCookie) ∧
    (∀ u p : String, ∀ cs : Option ClientSession,
      (VivintSkyApi.init u p cs).has_custom_client_session = cs.isSome) := by
  refine ⟨fun h => ?_, fun h => ?_, ?_, fun u p cs => rfl⟩
  · simp [VivintSkyApi.disconnect, h]
  · simp [VivintSkyApi.disconnect, h]
  · unfold VivintSkyApi.disconnect
    by_cases h : api.has_custom_client_session <;> simp [h]

/-- C10 witness: a client built without a supplied session has its session
closed by `disconnect` while credentials and cache survive; a client built
on a caller-supplied session is returned unchanged. -/
theorem disconnect_spec_witness :
    ((VivintSkyApi.init "u" "p" none).disconnect.client_session.closed = true) ∧
    ((VivintSkyApi.init "u" "p" (some get_new_client_session)).disconnect
      = VivintSkyApi.init "u" "p" (some get_new_client_session)) ∧
    ((VivintSkyApi.init "u" "p" none).disconnect.username = "u") := by
  refine ⟨(disconnect_spec (VivintSkyApi.init "u" "p" none)).2.1 rfl, ?_, ?_⟩
  · exact (disconnect_spec
      (VivintSkyApi.init "u" "p" (some get_new_client_session))).1 rfl
  · exact (disconnect_spec (VivintSkyApi.init "u" "p" none)).2.2.1.1

/-- Count of Authenticator invocations in a dispatcher event trace. -/
def authCalls (t : List DispatchEvent) : Nat :=
  t.countP fun e => e = DispatchEvent.authenticatorCall

/-- C1: dispatching a non-login path with an invalid session invokes the
Authenticator exactly once, and (when the reauthentication completes) the
trace is precisely check–authenticate–request, so the authentication is
awaited before the underlying request is sent; dispatching a non-login path
with a valid session sends the request directly; dispatching the login path
performs the request with no session-validity check and no reauthentication
whatever the session state (Python's `and` short-circuits), so `connect`'s
own login dispatch never recurses. -/
theorem call_trace_auth_discipline (api : VivintSkyApi) (now : Nat)
    (path : String) (authOk : Bool) :
    (path ≠ "login" → api.is_session_valid now = false →
      authCalls (api.call_trace now path authOk) = 1 ∧
      (authOk = true →
        api.call_trace now path authOk
          = [.sessionCheck false, .authenticatorCall, .httpRequest path])) ∧
    (path ≠ "login" → api.is_session_valid now = true →
      api.call_trace now path authOk = [.sessionCheck true, .httpRequest path]) ∧
    (path = "login" → api.call_trace now path authOk = [.httpRequest path]) := by
  refine ⟨fun hp hv => ⟨?_, fun ha => ?_⟩, fun hp hv => ?_, fun hp => ?_⟩
  · cases authOk <;>
      simp [VivintSkyApi.call_trace, hp, hv, authCalls, List.countP_cons]
  · simp [VivintSkyApi.call_trace, hp, hv, ha]
  · simp [VivintSkyApi.call_trace, hp, hv]
  · simp [VivintSkyApi.call_trace, hp]

/-- C1 witness: with a session cookie expired at time 10, a dispatch of
`"authuser"` authenticates exactly once and its trace is
check–authenticate–request; a dispatch of `"login"` under the same state is
just the request. -/
theorem call_trace_auth_discipline_witness :
    (authCalls ((VivintSkyApi.init "u" "p"
        (some { sessionCookie := some { expires := 3 }, closed := false })).call_trace
        10 "authuser" true) = 1 ∧
      (VivintSkyApi.init "u" "p"
        (some { sessionCookie := some { expires := 3 }, closed := false })).call_trace
        10 "authuser" true
        = [.sessionCheck false, .authenticatorCall, .httpRequest "authuser"]) ∧
    ((VivintSkyApi.init "u" "p"
        (some { sessionCookie := some { expires := 3 }, closed := false })).call_trace
        10 "login" true = [.httpRequest "login"]) := by
  have h := call_trace_auth_discipline
    (VivintSkyApi.init "u" "p"
      (some { sessionCookie := some { expires := 3 }, closed := false }))
    10 "authuser" true
  have hl := call_trace_auth_discipline
    (VivintSkyApi.init "u" "p"
      (some { sessionCookie := some { expires := 3 }, closed := false }))
    10 "login" true
  have h1 := h.1 (by decide) rfl
  exact ⟨⟨h1.1, h1.2 rfl⟩, hl.2.2 rfl⟩

/-- C4 (the `self.id` slip): `set_alarm_state` builds the documented PUT
request; a 200 response completes without error and logs nothing; a 403
response emits the error log naming the arm state and the request context,
but then raises `AttributeError` — the `VivintSkyApiError` message
references the nonexistent attribute `self.id` — instead of the intended
`ApiError` naming the target arm state. -/
theorem set_alarm_state_divergence :
    (set_alarm_state_request 1 1 4
      = { path := "1/1/armedstates", system := 1, partitionId := 1,
          armState := 4, forceArm := false }) ∧
    ((VivintSkyApi.init "u" "p" none).set_alarm_state 1 1 4
        { status := 200, jsonBody := [], text := "", headers := [] }
      = (.ok (), [])) ∧
    ((VivintSkyApi.init "u" "p" none).set_alarm_state 1 1 4
        { status := 403, jsonBody := [], text := "forbidden", headers := [] }
      = (.error (.attributeError "VivintSkyApi" "id"),
         ["failed to set state ArmedState 4. Code: 403, body: forbidden,request url: 1/1/armedstates"])) := by
  refine ⟨rfl, rfl, rfl⟩

/-- C5 (the `self.id` slip): `request_camera_thumbnail` completes silently
on 2xx statuses, but on a non-2xx status it raises `AttributeError` to the
caller — the log message's f-string reads the nonexistent `self.id` before
`_LOGGER.info` can run — contradicting "logged only, never raises". -/
theorem request_camera_thumbnail_divergence :
    ((VivintSkyApi.init "u" "p" none).request_camera_thumbnail 1 1 1
        { status := 200, jsonBody := [], text := "", headers := [] }
      = (.ok (), [])) ∧
    ((VivintSkyApi.init "u" "p" none).request_camera_thumbnail 1 1 1
        { status := 201, jsonBody := [], text := "", headers := [] }
      = (.ok (), [])) ∧
    ((VivintSkyApi.init "u" "p" none).request_camera_thumbnail 1 1 1
        { status := 404, jsonBody := [], text := "", headers := [] }
      = (.error (.attributeError "VivintSkyApi" "id"), [])) := by
  refine ⟨rfl, rfl, rfl⟩

/-- C6 (the `self.id` slip): on a 302 response `get_camera_thumbnail_url`
returns the `Location` header value verbatim, as claimed; but on any other
status (e.g. 404) it raises `AttributeError` — the log message's f-string
reads the nonexistent `self.id` — instead of logging and returning
absence. -/
theorem get_camera_thumbnail_url_divergence :
    ((VivintSkyApi.init "u" "p" none).get_camera_thumbnail_url 1 1 1 0
        { status := 302, jsonBody := [], text := "",
          headers := [("Location", "http://example/thumb.jpg")] }
      = (.ok (some "http://example/thumb.jpg"), [])) ∧
    ((VivintSkyApi.init "u" "p" none).get_camera_thumbnail_url 1 1 1 0
        { status := 404, jsonBody := [], text := "", headers := [] }
      = (.error (.attributeError "VivintSkyApi" "id"), [])) := by
  refine ⟨rfl, rfl⟩

/-- C7 counterexample: a first lookup for key (1,2,3) answered with the
non-success status 302 performs a network call but neither propagates any
error nor populates the cache — the lookup returns `None`, because
`raise_for_status` only raises for statuses of 400 and above — refuting the
claim that every failed lookup propagates the error. -/
theorem get_zwave_details_302_no_error :
    (VivintSkyApi.init "u" "p" none).get_zwave_details 1 2 3
        { status := 302, titleMatch := none }
      = (.ok none, VivintSkyApi.init "u" "p" none, 1) := by
  rfl

/-- C7 (amended): on a cache miss answered 200, the lookup performs one
network call, splits the title match on the literal `" - "`, stores the
result under the key and returns it, and an immediately following lookup
for the same key performs zero network calls and returns the identical
stored result; a miss answered with a status of 400 or above propagates the
raised status error and leaves the state unchanged; a miss answered with
any other non-200 status returns `None` with no error and leaves the state
unchanged — in both failure branches the cache is untouched, so the next
lookup for that key performs a network call again. -/
theorem get_zwave_details_spec (api : VivintSkyApi) (m p pt : Nat)
    (resp resp2 : ZwaveResponse) (title : String)
    (hmiss : api.zwave_device_info.lookup (s!"{m}:{p}:{pt}") = none) :
    (resp.status = 200 → resp.titleMatch = some title →
      api.get_zwave_details m p pt resp
        = (.ok (some (pySplit title " - ")),
           { api with zwave_device_info :=
               (s!"{m}:{p}:{pt}", pySplit title " - ") :: api.zwave_device_info },
           1) ∧
      ((api.get_zwave_details m p pt resp).2.1.get_zwave_details m p pt resp2
        = (.ok (some (pySplit title " - ")),
           (api.get_zwave_details m p pt resp).2.1, 0))) ∧
    (400 ≤ resp.status →
      api.get_zwave_details m p pt resp
        = (.error (.clientResponseError resp.status), api, 1)) ∧
    (resp.status ≠ 200 → resp.status < 400 →
      api.get_zwave_details m p pt resp = (.ok none, api, 1)) := by
  refine ⟨fun h200 htitle => ?_, fun h400 => ?_, fun h200 h400 => ?_⟩
  · have h1 : api.get_zwave_details m p pt resp
        = (.ok (some (pySplit title " - ")),
           { api with zwave_device_info :=
               (s!"{m}:{p}:{pt}", pySplit title " - ") :: api.zwave_device_info },
           1) := by
      unfold VivintSkyApi.get_zwave_details
      simp [hmiss, h200, htitle]
    refine ⟨h1, ?_⟩
    rw [h1]
    unfold VivintSkyApi.get_zwave_details
    simp [List.lookup]
  · have hne : resp.status ≠ 200 := by omega
    unfold VivintSkyApi.get_zwave_details
    simp [hmiss, hne, raise_for_status, h400]
  · unfold VivintSkyApi.get_zwave_details
    simp [hmiss, h200, raise_for_status, Nat.not_le.mpr h400]

/-- C7 witness: for key (1,2,3) and a 200 response titled
`"Acme Co - Door Sensor"`, the first lookup returns
`["Acme Co", "Door Sensor"]` with one network call and the second lookup
for the same key returns the identical stored result with zero network
calls. -/
theorem get_zwave_details_spec_witness :
    (VivintSkyApi.init "u" "p" none).get_zwave_details 1 2 3
        { status := 200, titleMatch := some "Acme Co - Door Sensor" }
      = (.ok (some ["Acme Co", "Door Sensor"]),
         { username := "u", password := "p",
           client_session := get_new_client_session,
           has_custom_client_session := false,
           zwave_device_info := [("1:2:3", ["Acme Co", "Door Sensor"])] },
         1) ∧
    (((VivintSkyApi.init "u" "p" none).get_zwave_details 1 2 3
        { status := 200, titleMatch := some "Acme Co - Door Sensor" }).2.1.get_zwave_details
        1 2 3 { status := 500, titleMatch := none })
      = (.ok (some ["Acme Co", "Door Sensor"]),
         ((VivintSkyApi.init "u" "p" none).get_zwave_details 1 2 3
           { status := 200, titleMatch := some "Acme Co - Door Sensor" }).2.1,
         0) := by
  have h := (get_zwave_details_spec (VivintSkyApi.init "u" "p" none) 1 2 3
    { status := 200, titleMatch := some "Acme Co - Door Sensor" }
    { status := 500, titleMatch := none } "Acme Co - Door Sensor" rfl).1 rfl rfl
  exact ⟨h.1.trans (by rfl), h.2.trans (by rfl)⟩

/-- One scheduler step never increases the bound `authBound`: invoking the
Authenticator spends the `ready` weight of the task that invokes it. -/
theorem stepTask_authBound_le (s : DispatchSystem) (i : Nat) :
    authBound (stepTask s i) ≤ authBound s := by
  unfold stepTask authBound
  by_cases hi : i = 0
  all_goals cases h0 : s.t0 <;> cases h1 : s.t1 <;> cases hv : s.sessionValid <;>
    simp [hi, phaseAdvance, readyWeight, h0, h1, hv]

/-- Running any schedule never increases the bound `authBound`. -/
theorem runSchedule_authBound_le (l : List Nat) (s : DispatchSystem) :
    authBound (runSchedule s l) ≤ authBound s := by
  induction l generalizing s with
  | nil => exact Nat.le_refl _
  | cons i rest ih =>
    exact Nat.le_trans (ih (stepTask s i)) (stepTask_authBound_le s i)

/-- C8 counterexample: under the schedule in which both concurrent
dispatches run their validity check before either completes its
reauthentication, each independently invokes the Authenticator — two
invocations, refuting "at most one Authenticator invocation". -/
theorem concurrent_dispatch_double_auth :
    (runSchedule expiredStart [0, 1, 0, 1, 0, 1]).authInvocations = 2 := by
  decide

/-- C8 (amended): the dispatcher has no single-flight guard — each dispatch
that observes an invalid session invokes the Authenticator itself, so two
dispatches issued concurrently on an expired session perform at most two
(not at most one) Authenticator invocations under every schedule, and a
single invocation occurs when one dispatch completes its reauthentication
before the other runs its validity check (a serialized schedule). -/
theorem concurrent_dispatch_auth_bound :
    (∀ sched : List Nat,
      (runSchedule expiredStart sched).authInvocations ≤ 2) ∧
    (runSchedule expiredStart [0, 0, 0, 1, 1, 1]).authInvocations = 1 := by
  constructor
  · intro sched
    have h1 : (runSchedule expiredStart sched).authInvocations
        ≤ authBound (runSchedule expiredStart sched) :=
      Nat.le_add_right _ _ |>.trans (Nat.le_add_right _ _) |>.trans (Nat.le_refl _)
    have h2 := runSchedule_authBound_le sched expiredStart
    have h3 : authBound expiredStart = 2 := rfl
    omega
  · decide

end PyVivint
